import Mathlib

/-!
Shallow embedding of `server/app/main.py`, the application bootstrap of the
idle_company_game repository.  The file constructs a FastAPI application with
title `settings.APP_NAME`, installs a CORS middleware allowing the single
origin `http://localhost:5173` (credentials allowed, all methods and headers
allowed), mounts an external router under the `/api` path, and defines one
GET handler on `/` returning the configured application name.

The settings module (`app.core.settings`), the router (`app.api.routes`) and
the framework itself (FastAPI, Starlette's CORSMiddleware) are not part of
the provided sources; their behavior, where a claim depends on it, is
modelled from the specification and marked as such in doc comments.
-/

/-- Configuration object imported from `app.core.settings` (external to the
provided sources): it exposes the field `APP_NAME`. -/
structure Settings where
  APP_NAME : String
  deriving DecidableEq, Repr

/-- Response body of the root handler: a JSON object, embedded as an
association list of string keys to string values. -/
abbrev Body := List (String × String)

/-- HTTP response for an ordinary endpoint: a status code and a JSON-object
body. -/
structure Response where
  status : Nat
  body : Body
  deriving DecidableEq, Repr

/-- Embedding of the root handler, `main.py` lines 21-23:
the function body is `return` of the one-entry dict mapping the key `name`
to `settings.APP_NAME`. -/
def root (settings : Settings) : Body :=
  [("name", settings.APP_NAME)]

/-- Modelled from the spec: the framework (FastAPI, not under the provided
sources) wraps a handler that returns a dict into an HTTP `200 OK` response
whose JSON body is that dict; `GET /` dispatches to `root`. -/
def getRoot (settings : Settings) : Response :=
  { status := 200, body := root settings }

/-- Keyword configuration accepted by the CORS middleware, as passed at
`main.py` lines 10-16. -/
structure CORSConfig where
  allow_origins : List String
  allow_credentials : Bool
  allow_methods : List String
  allow_headers : List String
  deriving DecidableEq, Repr

/-- The CORS middleware configuration installed by the bootstrap,
`main.py` lines 10-16. -/
def corsConfig : CORSConfig :=
  { allow_origins := ["http://localhost:5173"]
    allow_credentials := true
    allow_methods := ["*"]
    allow_headers := ["*"] }

/-- CORS-relevant headers of a preflight response. -/
structure PreflightHeaders where
  accessControlAllowOrigin : String
  accessControlAllowCredentials : Bool
  accessControlAllowMethods : List String
  accessControlAllowHeaders : List String
  deriving DecidableEq, Repr

/-- Modelled from the spec: the CORS middleware (framework code, not under
the provided sources) answers a preflight request whose `Origin` is in the
allow-list with an `Access-Control-Allow-Origin` header equal to that origin
together with the configured credentials, method and header permissions; an
origin outside the allow-list receives no CORS headers at all. -/
def preflight (cfg : CORSConfig) (origin : String) : Option PreflightHeaders :=
  if origin ∈ cfg.allow_origins then
    some { accessControlAllowOrigin := origin
           accessControlAllowCredentials := cfg.allow_credentials
           accessControlAllowMethods := cfg.allow_methods
           accessControlAllowHeaders := cfg.allow_headers }
  else none

/-- An HTTP request: method, path, header list, raw body bytes. -/
structure Request where
  method : String
  path : String
  headers : List (String × String)
  body : List Nat
  deriving DecidableEq, Repr

/-- Value of a named header of a request, if present. -/
def headerValue (req : Request) (k : String) : Option String :=
  req.headers.lookup k

/-- Modelled from the spec: the middleware recognises a preflight as an
`OPTIONS` request carrying an `Origin` header and answers it from the
configured allow-list; any other request is not a preflight and gets no
preflight response. -/
def preflightRespond (cfg : CORSConfig) (req : Request) : Option PreflightHeaders :=
  if req.method = "OPTIONS" then
    match headerValue req "Origin" with
    | some o => preflight cfg o
    | none => none
  else none

/-- Test that a path begins with the given path prefix, character by
character. -/
def pathUnder (pfx path : String) : Bool :=
  pfx.toList.isPrefixOf path.toList

/-- Modelled from the spec: `app.include_router(api_router, "/api")`
(framework code) delegates a request whose path falls under the `/api/`
prefix to the mounted router exactly as received, with no header or body
rewriting; paths outside the prefix are not handed to the router. -/
def forwardToRouter (req : Request) : Option Request :=
  if pathUnder "/api/" req.path then some req else none

/-- The application instance assembled by the bootstrap: its title, the
installed middleware configurations in installation order, and the paths of
the mounted routes. -/
structure App where
  title : String
  middlewares : List CORSConfig
  routePaths : List String
  deriving DecidableEq, Repr

/-- Embedding of `main.py` line 7, `app = FastAPI(title=settings.APP_NAME)`:
a fresh application instance with the configured title, no middleware and no
application routes yet. -/
def mkApp (settings : Settings) : App :=
  { title := settings.APP_NAME, middlewares := [], routePaths := [] }

/-- Embedding of `app.add_middleware(CORSMiddleware, ...)`: the configuration
is appended to the application's middleware stack. -/
def addMiddleware (a : App) (cfg : CORSConfig) : App :=
  { a with middlewares := a.middlewares ++ [cfg] }

/-- Embedding of `app.include_router(api_router, "/api")`: every route path
of the external router is mounted under the given path prefix. -/
def includeRouter (a : App) (routerPaths : List String) (pfx : String) : App :=
  { a with routePaths := a.routePaths ++ routerPaths.map (fun p => pfx ++ p) }

/-- Embedding of the `@app.get("/")` decoration at `main.py` line 21: the
route path is registered on the application. -/
def addRoute (a : App) (path : String) : App :=
  { a with routePaths := a.routePaths ++ [path] }

/-- Modelled from the spec: the module-level bootstrap sequence of
`main.py` lines 1-23 in order - import of the settings module, import of the
router module, application construction, CORS middleware installation,
router mount, root route registration.  A Python exception raised by an
imported module is embedded as an `Except.error`; since the module contains
no `try`/`except` and no retry, each step's error propagates unchanged to
the caller and no application value is produced. -/
def bootstrap (loadSettings : Except String Settings)
    (loadRouter : Except String (List String)) : Except String App := do
  let settings ← loadSettings
  let routerPaths ← loadRouter
  let a := mkApp settings
  let a := addMiddleware a corsConfig
  let a := includeRouter a routerPaths "/api"
  pure (addRoute a "/")

/-- Full application state visible to a request handler: the settings object
and the assembled application instance. -/
structure AppState where
  settings : Settings
  app : App
  deriving DecidableEq, Repr

/-- One invocation of the root handler as a state transition: the embedding
of the handler body at `main.py` lines 21-23, which only reads
`settings.APP_NAME` and mutates nothing, threads the state through
unchanged. -/
def invokeRoot (st : AppState) : Response × AppState :=
  (getRoot st.settings, st)

/-- A served response together with the CORS header the middleware may have
attached. -/
structure ServedResponse where
  status : Nat
  allowOriginHeader : Option String
  deriving DecidableEq, Repr

/-- Modelled from the spec: serving one non-preflight request.  The router
dispatch matches the request path against the application's registered
routes; middleware installed with `add_middleware` wraps the whole
application, so it runs on the response of every matched route, and the CORS
middleware attaches the `Access-Control-Allow-Origin` header exactly when
the request's `Origin` is in an installed allow-list. -/
def serve (a : App) (req : Request) : Option ServedResponse :=
  if req.path ∈ a.routePaths then
    some { status := 200
           allowOriginHeader :=
             match headerValue req "Origin" with
             | some o =>
               if a.middlewares.any (fun cfg => cfg.allow_origins.contains o) then
                 some o
               else none
             | none => none }
  else none

/-- C1: for every configured application name string, including the empty
string, GET / returns status 200 with body the one-entry object mapping
`name` to the configured name; in particular, with configured name
`MyService` the body is exactly the object mapping `name` to `MyService`. -/
theorem c1_get_root_returns_name :
    (∀ name : String,
      (getRoot { APP_NAME := name }).status = 200 ∧
      (getRoot { APP_NAME := name }).body = [("name", name)]) ∧
    getRoot { APP_NAME := "MyService" } =
      { status := 200, body := [("name", "MyService")] } :=
  ⟨fun _ => ⟨rfl, rfl⟩, rfl⟩

/-- C2: every preflight OPTIONS request carrying the header
`Origin: http://localhost:5173` receives a response whose
`Access-Control-Allow-Origin` equals that origin, with credentials allowed
and all methods and headers allowed. -/
theorem c2_preflight_localhost_allowed (req : Request)
    (hm : req.method = "OPTIONS")
    (ho : headerValue req "Origin" = some "http://localhost:5173") :
    preflightRespond corsConfig req =
      some { accessControlAllowOrigin := "http://localhost:5173"
             accessControlAllowCredentials := true
             accessControlAllowMethods := ["*"]
             accessControlAllowHeaders := ["*"] } := by
  simp [preflightRespond, hm, ho, preflight, corsConfig]

/-- Witness for C2 at a concrete preflight request. -/
theorem c2_witness :
    preflightRespond corsConfig
      { method := "OPTIONS", path := "/api/game",
        headers := [("Origin", "http://localhost:5173")], body := [] } =
      some { accessControlAllowOrigin := "http://localhost:5173"
             accessControlAllowCredentials := true
             accessControlAllowMethods := ["*"]
             accessControlAllowHeaders := ["*"] } :=
  c2_preflight_localhost_allowed _ rfl (by decide)

/-- C3: a preflight request whose Origin is not in the allow-list does not
receive an `Access-Control-Allow-Origin` header matching that origin. -/
theorem c3_preflight_other_origin_no_header (req : Request) (o : String)
    (hm : req.method = "OPTIONS")
    (ho : headerValue req "Origin" = some o)
    (hno : o ∉ corsConfig.allow_origins) :
    ¬ ∃ h, preflightRespond corsConfig req = some h ∧
        h.accessControlAllowOrigin = o := by
  rintro ⟨h, hsome, -⟩
  simp [preflightRespond, hm, ho, preflight, hno] at hsome

/-- Witness for C3 at a concrete preflight request from
`http://evil.example.com`. -/
theorem c3_witness :
    ("http://evil.example.com" ∉ corsConfig.allow_origins) ∧
    ¬ ∃ h, preflightRespond corsConfig
        { method := "OPTIONS", path := "/",
          headers := [("Origin", "http://evil.example.com")], body := [] } =
          some h ∧
        h.accessControlAllowOrigin = "http://evil.example.com" :=
  ⟨by decide,
    c3_preflight_other_origin_no_header _ _ rfl (by decide) (by decide)⟩

/-- C4: every request to a path under the `/api/` prefix is handed to the
mounted router exactly as received: no header and no body changes. -/
theorem c4_api_forward_unmodified (req : Request)
    (h : pathUnder "/api/" req.path = true) :
    forwardToRouter req = some req := by
  simp [forwardToRouter, h]

/-- Witness for C4 at a concrete request under `/api/`. -/
theorem c4_witness :
    forwardToRouter
      { method := "POST", path := "/api/company",
        headers := [("X-Test", "1")], body := [1, 2, 3] } =
      some { method := "POST", path := "/api/company",
             headers := [("X-Test", "1")], body := [1, 2, 3] } :=
  c4_api_forward_unmodified _ (by decide)

/-- C5: the root handler is deterministic and side-effect free: an
invocation leaves the application state unchanged, and any two invocations
under the same configuration produce equal responses. -/
theorem c5_root_deterministic_stateless :
    (∀ st : AppState, (invokeRoot st).2 = st) ∧
    (∀ st₁ st₂ : AppState, st₁.settings = st₂.settings →
      (invokeRoot st₁).1 = (invokeRoot st₂).1) := by
  refine ⟨fun st => rfl, fun st₁ st₂ h => ?_⟩
  simp [invokeRoot, getRoot, root, h]

/-- Witness for C5: two concrete states with the same settings but
different application instances. -/
theorem c5_witness :
    (invokeRoot { settings := { APP_NAME := "MyService" },
                  app := { title := "MyService", middlewares := [],
                           routePaths := [] } }).2 =
      { settings := { APP_NAME := "MyService" },
        app := { title := "MyService", middlewares := [],
                 routePaths := [] } } ∧
    (invokeRoot { settings := { APP_NAME := "MyService" },
                  app := { title := "MyService", middlewares := [],
                           routePaths := [] } }).1 =
    (invokeRoot { settings := { APP_NAME := "MyService" },
                  app := { title := "Other", middlewares := [corsConfig],
                           routePaths := ["/"] } }).1 :=
  ⟨c5_root_deterministic_stateless.1 _,
   c5_root_deterministic_stateless.2 _ _ rfl⟩

/-- C6: application initialization produces an instance whose title equals
the configured application name. -/
theorem c6_app_title_is_app_name (s : Settings) :
    (mkApp s).title = s.APP_NAME :=
  rfl

/-- C7: the installed allow-list contains exactly the one origin
`http://localhost:5173` and nothing else. -/
theorem c7_allow_list_exactly_localhost :
    corsConfig.allow_origins.length = 1 ∧
    ∀ o : String, o ∈ corsConfig.allow_origins ↔ o = "http://localhost:5173" := by
  refine ⟨rfl, fun o => ?_⟩
  simp [corsConfig]

/-- C8: the bootstrap has no error handler and no retry: it produces an
application exactly when every step succeeds, a settings failure propagates
unchanged, and a router failure after successful settings also propagates
unchanged, so no partially configured application is ever produced. -/
theorem c8_bootstrap_fail_fast (ls : Except String Settings)
    (lr : Except String (List String)) :
    ((∃ a, bootstrap ls lr = Except.ok a) ↔ ls.isOk = true ∧ lr.isOk = true) ∧
    (∀ e, ls = Except.error e → bootstrap ls lr = Except.error e) ∧
    (∀ s e, ls = Except.ok s → lr = Except.error e →
      bootstrap ls lr = Except.error e) := by
  cases ls with
  | error e =>
    refine ⟨⟨fun h => ?_, fun h => ?_⟩, fun e2 he => ?_, fun s e2 hs he => ?_⟩
    · obtain ⟨a, ha⟩ := h
      exact Except.noConfusion ha
    · exact Bool.noConfusion h.1
    · injection he with h
      subst h
      rfl
    · exact Except.noConfusion hs
  | ok s =>
    cases lr with
    | error e =>
      refine ⟨⟨fun h => ?_, fun h => ?_⟩, fun e2 he => ?_,
        fun s2 e2 hs he => ?_⟩
      · obtain ⟨a, ha⟩ := h
        exact Except.noConfusion ha
      · exact Bool.noConfusion h.2
      · exact Except.noConfusion he
      · injection he with h
        subst h
        rfl
    | ok r =>
      refine ⟨⟨fun h => ⟨rfl, rfl⟩, fun h => ⟨_, rfl⟩⟩, fun e2 he => ?_,
        fun s2 e2 hs he => ?_⟩
      · exact Except.noConfusion he
      · exact Except.noConfusion he

/-- Witness for C8: a failing settings import propagates its error through
the bootstrap. -/
theorem c8_witness :
    bootstrap (Except.error "bad settings") (Except.ok []) =
      Except.error "bad settings" :=
  (c8_bootstrap_fail_fast (Except.error "bad settings")
    (Except.ok [])).2.1 "bad settings" rfl

/-- C9: the root handler is total: for every configuration state exposing
APP_NAME it produces a one-key dictionary, and the served response has
status 200, never the framework's 500 error. -/
theorem c9_root_total (s : Settings) :
    (root s).length = 1 ∧
    (getRoot s).status = 200 ∧ (getRoot s).status ≠ 500 := by
  refine ⟨rfl, rfl, ?_⟩
  intro h
  simp [getRoot] at h

/-- C10: in the application produced by a successful bootstrap the CORS
middleware is installed on the application itself, the root route and every
mounted router route are registered, and a request to any registered route
from the allowed origin is served with the CORS header attached - the policy
applies uniformly, not only to routes defined in the bootstrap file. -/
theorem c10_cors_uniform (s : Settings) (routerPaths : List String)
    (a : App)
    (hboot : bootstrap (Except.ok s) (Except.ok routerPaths) = Except.ok a) :
    a.middlewares = [corsConfig] ∧
    ("/" ∈ a.routePaths) ∧
    (∀ p ∈ routerPaths, ("/api" ++ p) ∈ a.routePaths) ∧
    (∀ req : Request, req.path ∈ a.routePaths →
      headerValue req "Origin" = some "http://localhost:5173" →
      serve a req =
        some { status := 200,
               allowOriginHeader := some "http://localhost:5173" }) := by
  have ha : a = addRoute (includeRouter (addMiddleware (mkApp s) corsConfig)
      routerPaths "/api") "/" := by
    have h2 : Except.ok (addRoute (includeRouter (addMiddleware (mkApp s)
        corsConfig) routerPaths "/api") "/") = Except.ok a := hboot
    injection h2 with h3
    exact h3.symm
  subst ha
  refine ⟨rfl, ?_, ?_, ?_⟩
  · simp [addRoute, includeRouter, addMiddleware, mkApp]
  · intro p hp
    simp [addRoute, includeRouter, addMiddleware, mkApp]
    exact Or.inl ⟨p, hp, rfl⟩
  · intro req hmem horig
    unfold serve
    rw [if_pos hmem, horig]
    rfl

/-- Witness for C10: a concrete successful bootstrap with one router route,
and a request to the mounted route from the allowed origin served with the
CORS header. -/
theorem c10_witness :
    serve (addRoute (includeRouter (addMiddleware
        (mkApp { APP_NAME := "MyService" }) corsConfig) ["/game"] "/api") "/")
      { method := "GET", path := "/api/game",
        headers := [("Origin", "http://localhost:5173")], body := [] } =
      some { status := 200,
             allowOriginHeader := some "http://localhost:5173" } :=
  (c10_cors_uniform { APP_NAME := "MyService" } ["/game"] _ rfl).2.2.2
    _ (by decide) (by decide)
